import Mathlib

/-!
Shallow embedding of the telegraf vSphere input plugin
(`plugins/inputs/vsphere/vsphere.go`).

The repository file contains two evolving variants of the plugin:
* the *concurrent* variant (`Gather` at the top of the file, lines 62-146):
  one goroutine per configured name pattern, per-pattern failures reported
  through `acc.AddError`, `Gather` returns `nil` once session establishment
  succeeded;
* the *sequential* variant (`Gather` lower in the file, lines 452-514):
  a plain loop over the patterns, any failure aborts the cycle with a
  non-nil error.

Pure data flow is embedded directly; the external collaborators
(`govmomi.NewClient`, `find.Finder.*List`, `property.Collector.Retrieve`)
are modelled as oracle parameters supplied by an environment record, since
their code is not part of this repository.  Go's `int64` arithmetic is
embedded as `Int` (the only arithmetic performed is division by positive
constants, which cannot overflow), and Go's truncated integer division is
`Int.tdiv`.
-/

namespace Vsphere

/-- A value stored in the `records` map handed to `acc.AddFields`
(`map[string]interface{}` in Go, holding ints, strings or bools here). -/
inductive FieldValue where
  | int (i : Int)
  | str (s : String)
  | bool (b : Bool)
deriving DecidableEq, Repr

/-- `types.ManagedObjectReference`: kind-tagged opaque identifier. -/
structure ManagedObjectReference where
  kind : String
  value : String
deriving DecidableEq, Repr

/-- An inventory object handle as returned by the finder
(`object.HostSystem` / `object.Datastore` / `object.VirtualMachine`);
the gather functions only ever use its `Reference()`. -/
structure InventoryObject where
  reference : ManagedObjectReference
deriving DecidableEq, Repr

/-! ### Property bags (the `mo.*` structs, restricted to the fields read) -/

/-- `mo.HostSystem.Summary.Hardware` fields read by the extractor. -/
structure HostHardwareSummary where
  numCpuCores : Int
  cpuMhz : Int
  memorySize : Int
deriving DecidableEq, Repr

/-- `mo.HostSystem.Summary.QuickStats` fields read by the extractor. -/
structure HostQuickStats where
  overallCpuUsage : Int
  overallMemoryUsage : Int
deriving DecidableEq, Repr

/-- `mo.HostSystem.Summary.Runtime` fields read by the extractor. -/
structure HostRuntimeInfo where
  connectionState : String
deriving DecidableEq, Repr

/-- `mo.HostSystem.Summary` fields read by the extractor. -/
structure HostSummary where
  runtime : HostRuntimeInfo
  overallStatus : String
  hardware : HostHardwareSummary
  quickStats : HostQuickStats
deriving DecidableEq, Repr

/-- `mo.HostSystem` property bag (properties `name`, `summary`). -/
structure HostSystem where
  name : String
  summary : HostSummary
deriving DecidableEq, Repr

/-- `mo.Datastore.Summary` fields read by the extractors. -/
structure DatastoreSummary where
  name : String
  type : String
  capacity : Int
  freeSpace : Int
  uncommitted : Int
deriving DecidableEq, Repr

/-- `mo.Datastore` property bag (property `summary`, plus the inherited
`OverallStatus` that the concurrent variant reads). -/
structure Datastore where
  summary : DatastoreSummary
  overallStatus : String
deriving DecidableEq, Repr

/-- `types.VirtualHardware` fields read by the extractors. -/
structure VirtualHardware where
  numCPU : Int
  numCoresPerSocket : Int
  memoryMB : Int
deriving DecidableEq, Repr

/-- `mo.VirtualMachine.Config` fields read by the extractors. -/
structure VirtualMachineConfig where
  guestFullName : String
  guestId : String
  hardware : VirtualHardware
deriving DecidableEq, Repr

/-- `mo.VirtualMachine.Summary.Guest` fields read by the extractors. -/
structure VirtualMachineGuestSummary where
  hostName : String
  ipAddress : String
  toolsRunningStatus : String
deriving DecidableEq, Repr

/-- `mo.VirtualMachine.Summary.Runtime` fields read by the extractors. -/
structure VirtualMachineRuntimeInfo where
  connectionState : String
  maxCpuUsage : Int
  maxMemoryUsage : Int
deriving DecidableEq, Repr

/-- `mo.VirtualMachine.Summary.QuickStats` fields read by the extractors. -/
structure VirtualMachineQuickStats where
  overallCpuUsage : Int
  overallCpuDemand : Int
  hostMemoryUsage : Int
  guestMemoryUsage : Int
  swappedMemory : Int
  balloonedMemory : Int
  uptimeSeconds : Int
deriving DecidableEq, Repr

/-- `mo.VirtualMachine.Summary.Storage` fields read by the extractors. -/
structure VirtualMachineStorageSummary where
  committed : Int
  uncommitted : Int
deriving DecidableEq, Repr

/-- `mo.VirtualMachine.Summary` fields read by the extractors. -/
structure VirtualMachineSummary where
  guest : VirtualMachineGuestSummary
  runtime : VirtualMachineRuntimeInfo
  overallStatus : String
  quickStats : VirtualMachineQuickStats
  storage : VirtualMachineStorageSummary
deriving DecidableEq, Repr

/-- `mo.VirtualMachine` property bag (properties `name`, `config`, `summary`). -/
structure VirtualMachine where
  name : String
  config : VirtualMachineConfig
  summary : VirtualMachineSummary
deriving DecidableEq, Repr

/-- One emitted metric record: an `acc.AddFields(measurement, records, tags)`
call.  The Go maps are built by inserting distinct literal keys, so an
association list in insertion order is a faithful model. -/
structure Metric where
  measurement : String
  fields : List (String × FieldValue)
  tags : List (String × String)
deriving DecidableEq, Repr

/-! ### Per-object extraction (the loop bodies of the gather functions) -/

/-- Host tag set; the loop body is identical in both variants
(lines 161-180 and lines 428-447). -/
def hostTags (host : HostSystem) : List (String × String) :=
  [("name", host.name)]

/-- Host field set; identical in both variants.  `memory_granted` embeds
Go's `host.Summary.Hardware.MemorySize / 1024 / 1024` with `int64`
truncated division. -/
def hostRecords (host : HostSystem) : List (String × FieldValue) :=
  [("connection_state", .str host.summary.runtime.connectionState),
   ("health_status", .str host.summary.overallStatus),
   ("cpu_cores", .int host.summary.hardware.numCpuCores),
   ("cpu_speed", .int host.summary.hardware.cpuMhz),
   ("cpu_usage", .int host.summary.quickStats.overallCpuUsage),
   ("memory_granted", .int ((host.summary.hardware.memorySize.tdiv 1024).tdiv 1024)),
   ("memory_usage", .int host.summary.quickStats.overallMemoryUsage)]

/-- Datastore tag set; identical in both variants. -/
def datastoreTags (ds : Datastore) : List (String × String) :=
  [("name", ds.summary.name)]

/-- Datastore field set of the concurrent variant (lines 199-213); note the
`health_status` entry taken from the object's overall status. -/
def datastoreRecordsConc (ds : Datastore) : List (String × FieldValue) :=
  [("type", .str ds.summary.type),
   ("health_status", .str ds.overallStatus),
   ("capacity", .int ds.summary.capacity),
   ("free_space", .int ds.summary.freeSpace),
   ("uncommitted_space", .int ds.summary.uncommitted)]

/-- Datastore field set of the sequential variant (lines 346-358); no
`health_status`. -/
def datastoreRecordsSeq (ds : Datastore) : List (String × FieldValue) :=
  [("type", .str ds.summary.type),
   ("capacity", .int ds.summary.capacity),
   ("free_space", .int ds.summary.freeSpace),
   ("uncommitted_space", .int ds.summary.uncommitted)]

/-- Virtual-machine tag set; identical in both variants. -/
def vmTags (vm : VirtualMachine) : List (String × String) :=
  [("name", vm.name),
   ("hostname", vm.summary.guest.hostName)]

/-- Virtual-machine field set of the concurrent variant (lines 231-263);
no `uptime`. -/
def vmRecordsConc (vm : VirtualMachine) : List (String × FieldValue) :=
  [("guest_os_name", .str vm.config.guestFullName),
   ("guest_os_id", .str vm.config.guestId),
   ("ip_address", .str vm.summary.guest.ipAddress),
   ("connection_state", .str vm.summary.runtime.connectionState),
   ("health_status", .str vm.summary.overallStatus),
   ("guest_tools_running", .str vm.summary.guest.toolsRunningStatus),
   ("cpu_sockets", .int vm.config.hardware.numCPU),
   ("cpu_cores_per_socket", .int vm.config.hardware.numCoresPerSocket),
   ("cpu_entitlement", .int vm.summary.runtime.maxCpuUsage),
   ("cpu_usage", .int vm.summary.quickStats.overallCpuUsage),
   ("cpu_demand", .int vm.summary.quickStats.overallCpuDemand),
   ("memory_granted", .int vm.config.hardware.memoryMB),
   ("memory_entitlement", .int vm.summary.runtime.maxMemoryUsage),
   ("memory_host_consumed", .int vm.summary.quickStats.hostMemoryUsage),
   ("memory_guest_active", .int vm.summary.quickStats.guestMemoryUsage),
   ("memory_swapped", .int vm.summary.quickStats.swappedMemory),
   ("memory_ballooned", .int vm.summary.quickStats.balloonedMemory),
   ("storage_committed", .int vm.summary.storage.committed),
   ("storage_uncommitted", .int vm.summary.storage.uncommitted)]

/-- Virtual-machine field set of the sequential variant (lines 377-410);
additionally emits `uptime` just before the storage fields. -/
def vmRecordsSeq (vm : VirtualMachine) : List (String × FieldValue) :=
  [("guest_os_name", .str vm.config.guestFullName),
   ("guest_os_id", .str vm.config.guestId),
   ("ip_address", .str vm.summary.guest.ipAddress),
   ("connection_state", .str vm.summary.runtime.connectionState),
   ("health_status", .str vm.summary.overallStatus),
   ("guest_tools_running", .str vm.summary.guest.toolsRunningStatus),
   ("cpu_sockets", .int vm.config.hardware.numCPU),
   ("cpu_cores_per_socket", .int vm.config.hardware.numCoresPerSocket),
   ("cpu_entitlement", .int vm.summary.runtime.maxCpuUsage),
   ("cpu_usage", .int vm.summary.quickStats.overallCpuUsage),
   ("cpu_demand", .int vm.summary.quickStats.overallCpuDemand),
   ("memory_granted", .int vm.config.hardware.memoryMB),
   ("memory_entitlement", .int vm.summary.runtime.maxMemoryUsage),
   ("memory_host_consumed", .int vm.summary.quickStats.hostMemoryUsage),
   ("memory_guest_active", .int vm.summary.quickStats.guestMemoryUsage),
   ("memory_swapped", .int vm.summary.quickStats.swappedMemory),
   ("memory_ballooned", .int vm.summary.quickStats.balloonedMemory),
   ("uptime", .int vm.summary.quickStats.uptimeSeconds),
   ("storage_committed", .int vm.summary.storage.committed),
   ("storage_uncommitted", .int vm.summary.storage.uncommitted)]

/-! ### Gather functions

Each `gather*Metrics` function builds the reference list from its input
objects, issues exactly one batched `property.Collector.Retrieve` call
(modelled as an oracle), and on success emits one record per returned bag.
The second component of the result records the argument of every retrieval
call that was issued, so that "no call is issued" is expressible. -/

/-- Outcome of the one external `Retrieve` call: either the Go error or the
list of property bags it filled in. -/
def RetrieveOracle (α : Type) : Type :=
  List ManagedObjectReference → Except String (List α)

/-- `gatherHostMetrics` body, shared by both variants (lines 148-183 and
lines 416-450): collect references, one batched retrieve, one `host` record
per result. -/
def gatherHostMetrics (retrieve : RetrieveOracle HostSystem)
    (hosts : List InventoryObject) :
    Except String (List Metric) × List (List ManagedObjectReference) :=
  let refs := hosts.map (fun obj => obj.reference)
  (match retrieve refs with
   | .error e => .error e
   | .ok results =>
      .ok (results.map (fun host => ⟨"host", hostRecords host, hostTags host⟩)),
   [refs])

/-- `gatherDatastoreMetrics` of the concurrent variant (lines 185-216). -/
def gatherDatastoreMetricsConc (retrieve : RetrieveOracle Datastore)
    (datastores : List InventoryObject) :
    Except String (List Metric) × List (List ManagedObjectReference) :=
  let refs := datastores.map (fun obj => obj.reference)
  (match retrieve refs with
   | .error e => .error e
   | .ok results =>
      .ok (results.map (fun ds => ⟨"datastore", datastoreRecordsConc ds, datastoreTags ds⟩)),
   [refs])

/-- `gatherDatastoreMetrics` of the sequential variant (lines 332-361). -/
def gatherDatastoreMetricsSeq (retrieve : RetrieveOracle Datastore)
    (datastores : List InventoryObject) :
    Except String (List Metric) × List (List ManagedObjectReference) :=
  let refs := datastores.map (fun obj => obj.reference)
  (match retrieve refs with
   | .error e => .error e
   | .ok results =>
      .ok (results.map (fun ds => ⟨"datastore", datastoreRecordsSeq ds, datastoreTags ds⟩)),
   [refs])

/-- `gatherVMMetrics` of the concurrent variant (lines 218-267). -/
def gatherVMMetricsConc (retrieve : RetrieveOracle VirtualMachine)
    (vms : List InventoryObject) :
    Except String (List Metric) × List (List ManagedObjectReference) :=
  let refs := vms.map (fun obj => obj.reference)
  (match retrieve refs with
   | .error e => .error e
   | .ok results =>
      .ok (results.map (fun vm => ⟨"virtual_machine", vmRecordsConc vm, vmTags vm⟩)),
   [refs])

/-- `gatherVMMetrics` of the sequential variant (lines 363-414). -/
def gatherVMMetricsSeq (retrieve : RetrieveOracle VirtualMachine)
    (vms : List InventoryObject) :
    Except String (List Metric) × List (List ManagedObjectReference) :=
  let refs := vms.map (fun obj => obj.reference)
  (match retrieve refs with
   | .error e => .error e
   | .ok results =>
      .ok (results.map (fun vm => ⟨"virtual_machine", vmRecordsSeq vm, vmTags vm⟩)),
   [refs])

/-! ### Orchestrators -/

/-- The plugin configuration (the `VSphere` struct). -/
structure VSphere where
  server : String
  username : String
  password : String
  insecure : Bool
  hosts : List String
  datastores : List String
  virtualMachines : List String

/-- The external collaborators of one polling cycle: URL parsing, login,
datacenter resolution, the three finder list calls, and the three batched
retrieval calls, each as an oracle. -/
structure Env where
  parseURL : Except String Unit
  newClient : Except String Unit
  defaultDatacenter : Except String Unit
  hostSystemList : String → Except String (List InventoryObject)
  datastoreList : String → Except String (List InventoryObject)
  virtualMachineList : String → Except String (List InventoryObject)
  retrieveHosts : RetrieveOracle HostSystem
  retrieveDatastores : RetrieveOracle Datastore
  retrieveVMs : RetrieveOracle VirtualMachine

/-- The accumulator after a cycle: metrics added with `AddFields` and
errors reported with `AddError`. -/
structure Accumulator where
  metrics : List Metric
  errors : List String
deriving DecidableEq, Repr

/-- Session establishment (lines 66-84 of either variant): URL parsing,
`govmomi.NewClient`, `DefaultDatacenter`; the first failure is returned. -/
def sessionEstablishment (env : Env) : Option String :=
  match env.parseURL with
  | .error e => some e
  | .ok _ =>
    match env.newClient with
    | .error e => some e
    | .ok _ =>
      match env.defaultDatacenter with
      | .error e => some e
      | .ok _ => none

/-- The goroutine body for one host pattern (lines 90-105): resolve the
pattern, then gather; each failure is reported via `acc.AddError` and ends
the task.  Result: (records added, errors reported). -/
def hostTask (env : Env) (name : String) : List Metric × List String :=
  match env.hostSystemList name with
  | .error e => ([], ["Cannot read host list for " ++ name ++ ": " ++ e])
  | .ok hosts =>
    match (gatherHostMetrics env.retrieveHosts hosts).1 with
    | .error e => ([], ["Cannot read host properties for " ++ name ++ ": " ++ e])
    | .ok ms => (ms, [])

/-- The goroutine body for one datastore pattern (lines 110-123). -/
def datastoreTask (env : Env) (name : String) : List Metric × List String :=
  match env.datastoreList name with
  | .error e => ([], ["Cannot read datastore list for " ++ name ++ ": " ++ e])
  | .ok dss =>
    match (gatherDatastoreMetricsConc env.retrieveDatastores dss).1 with
    | .error e => ([], ["Cannot read datastore properties for " ++ name ++ ": " ++ e])
    | .ok ms => (ms, [])

/-- The goroutine body for one virtual-machine pattern (lines 128-141). -/
def vmTask (env : Env) (name : String) : List Metric × List String :=
  match env.virtualMachineList name with
  | .error e => ([], ["Cannot read vm list for " ++ name ++ ": " ++ e])
  | .ok vms =>
    match (gatherVMMetricsConc env.retrieveVMs vms).1 with
    | .error e => ([], ["Cannot read vm properties for " ++ name ++ ": " ++ e])
    | .ok ms => (ms, [])

/-- `Gather` of the concurrent variant (lines 62-146): after session
establishment, one task per pattern (host, datastore and vm patterns), all
joined by the wait group; the function then returns `nil`.  The tasks only
append to the shared accumulator, so the cycle outcome is the multiset of
their outputs; this embedding lists them in pattern order. -/
def gatherConcurrent (v : VSphere) (env : Env) : Option String × Accumulator :=
  match sessionEstablishment env with
  | some e => (some e, ⟨[], []⟩)
  | none =>
    let tasks := v.hosts.map (hostTask env) ++ v.datastores.map (datastoreTask env)
      ++ v.virtualMachines.map (vmTask env)
    (none, ⟨(tasks.map Prod.fst).flatten, (tasks.map Prod.snd).flatten⟩)

/-- One sequential pattern loop of the second variant (e.g. lines 480-489):
resolve then gather, returning on the first error; records emitted by
earlier successful patterns stay in the accumulator. -/
def runPatternsSeq (resolve : String → Except String (List InventoryObject))
    (gather : List InventoryObject →
      Except String (List Metric) × List (List ManagedObjectReference)) :
    List String → Option String × List Metric
  | [] => (none, [])
  | p :: ps =>
    match resolve p with
    | .error e => (some e, [])
    | .ok objs =>
      match (gather objs).1 with
      | .error e => (some e, [])
      | .ok ms =>
        let rest := runPatternsSeq resolve gather ps
        (rest.1, ms ++ rest.2)

/-- `Gather` of the sequential variant (lines 452-514): session
establishment, then the datastore, virtual-machine and host pattern loops
in that order, each aborting the cycle on its first error. -/
def gatherSequential (v : VSphere) (env : Env) : Option String × Accumulator :=
  match sessionEstablishment env with
  | some e => (some e, ⟨[], []⟩)
  | none =>
    let ds := runPatternsSeq env.datastoreList
      (gatherDatastoreMetricsSeq env.retrieveDatastores) v.datastores
    match ds.1 with
    | some e => (some e, ⟨ds.2, []⟩)
    | none =>
      let vms := runPatternsSeq env.virtualMachineList
        (gatherVMMetricsSeq env.retrieveVMs) v.virtualMachines
      match vms.1 with
      | some e => (some e, ⟨ds.2 ++ vms.2, []⟩)
      | none =>
        let hs := runPatternsSeq env.hostSystemList
          (gatherHostMetrics env.retrieveHosts) v.hosts
        (hs.1, ⟨ds.2 ++ vms.2 ++ hs.2, []⟩)

/-! ### Spec-modelled inventory resolver -/

/-- Modelled from the spec: the inventory resolver (the external govmomi
calls `find.Finder.HostSystemList` / `DatastoreList` / `VirtualMachineList`
invoked at lines 93, 113, 131; their code is not part of this repository)
returns the objects of one kind whose display name matches the glob
pattern, scoped to the resolved datacenter; a pattern matching nothing
yields an empty sequence and no error.  The glob matcher itself is
abstracted as a boolean predicate. -/
def resolveList (matchesPattern : String → String → Bool)
    (catalog : List (String × InventoryObject)) (pattern : String) :
    Except String (List InventoryObject) :=
  .ok ((catalog.filter (fun entry => matchesPattern pattern entry.1)).map Prod.snd)

/-! ### Concrete sample inputs (used by witnesses and counterexamples) -/

/-- A sample host property bag (values from the README example output). -/
def exHost : HostSystem :=
  ⟨"esxi1.domain.com",
   ⟨⟨"connected"⟩, "green", ⟨16, 2693, 412229566464⟩, ⟨25134, 376990⟩⟩⟩

/-- A sample datastore property bag (values from the README example output). -/
def exDatastore : Datastore :=
  ⟨⟨"ds1", "VMFS", 9895336214528, 1510909935616, 19212208096956⟩, "green"⟩

/-- A sample virtual machine whose guest tools are not running: guest IP
address and guest hostname are absent (empty strings in the bag). -/
def exVMNoTools : VirtualMachine :=
  ⟨"vm1",
   ⟨"Ubuntu Linux (64-bit)", "ubuntu64Guest", ⟨1, 1, 8192⟩⟩,
   ⟨⟨"", "", "guestToolsNotRunning"⟩, ⟨"connected", 2194, 8192⟩, "green",
    ⟨43, 43, 8150, 737, 0, 0, 3600⟩, ⟨57669734481, 4786750081⟩⟩⟩

/-- A sample managed object reference for `exHost`. -/
def exHostRef : ManagedObjectReference := ⟨"HostSystem", "host-10"⟩

/-- The finder handle for `exHost`. -/
def exHostObj : InventoryObject := ⟨exHostRef⟩

/-- A retrieval oracle that answers every query, including the empty one,
with the sample host bag: a backend whose empty filter is the degenerate
all-objects sentinel. -/
def sentinelRetrieveHosts : RetrieveOracle HostSystem :=
  fun _ => .ok [exHost]

/-- A sample configuration: one host pattern that resolves, one datastore
pattern whose resolution fails, no vm patterns. -/
def exCfg : VSphere :=
  ⟨"vcenter.domain.com", "root", "vmware", false, ["esxi*"], ["ds*"], []⟩

/-- A sample environment where session establishment succeeds, the host
pattern resolves to `exHostObj`, and datastore resolution fails. -/
def exEnv : Env where
  parseURL := .ok ()
  newClient := .ok ()
  defaultDatacenter := .ok ()
  hostSystemList := fun name => if name = "esxi*" then .ok [exHostObj] else .error "not found"
  datastoreList := fun _ => .error "boom"
  virtualMachineList := fun _ => .ok []
  retrieveHosts := fun refs => if refs = [exHostRef] then .ok [exHost] else .error "bad refs"
  retrieveDatastores := fun _ => .ok []
  retrieveVMs := fun _ => .ok []

/-- A sample environment where login (`govmomi.NewClient`) fails. -/
def exBadEnv : Env where
  parseURL := .ok ()
  newClient := .error "login failed"
  defaultDatacenter := .ok ()
  hostSystemList := fun _ => .ok []
  datastoreList := fun _ => .ok []
  virtualMachineList := fun _ => .ok []
  retrieveHosts := fun _ => .ok []
  retrieveDatastores := fun _ => .ok []
  retrieveVMs := fun _ => .ok []

/-- Exact-name pattern matching, a sample instance of the abstract glob
matcher. -/
def eqMatcher : String → String → Bool := fun pattern name => pattern == name

/-- A sample environment whose host resolver is the spec-modelled
`resolveList` over a one-host catalog and whose host retrieval succeeds
with no bags on the empty reference list. -/
def exEnvResolver : Env where
  parseURL := .ok ()
  newClient := .ok ()
  defaultDatacenter := .ok ()
  hostSystemList := resolveList eqMatcher [("esxi1", exHostObj)]
  datastoreList := fun _ => .ok []
  virtualMachineList := fun _ => .ok []
  retrieveHosts := fun _ => .ok []
  retrieveDatastores := fun _ => .ok []
  retrieveVMs := fun _ => .ok []

/-! ## Theorems -/

/-- Go's truncated `int64` division by 1024 twice is truncated division by
1048576 (`Int.tdiv` is truncation toward zero). -/
theorem tdiv_kilo_kilo (m : ℤ) : (m.tdiv 1024).tdiv 1024 = m.tdiv 1048576 := by
  have key : ∀ n : ℕ, (((n : ℤ).tdiv 1024).tdiv 1024) = (n : ℤ).tdiv 1048576 := by
    intro n
    have h1 : ((1024 : ℤ)) = ((1024 : ℕ) : ℤ) := by norm_num
    have h2 : ((1048576 : ℤ)) = ((1048576 : ℕ) : ℤ) := by norm_num
    rw [h1, h2, ← Int.ofNat_tdiv, ← Int.ofNat_tdiv, ← Int.ofNat_tdiv,
      Nat.div_div_eq_div_mul]
  rcases Int.natAbs_eq m with h | h <;> rw [h]
  · exact key m.natAbs
  · rw [Int.neg_tdiv, Int.neg_tdiv, Int.neg_tdiv, key m.natAbs]

/-- C2: for every host property bag with raw hardware memory size `M`
bytes, the emitted host record's `memory_granted` field equals `M` divided
by 1,048,576 with the quotient truncated toward zero (the code computes
`M / 1024 / 1024` in truncated `int64` division). -/
theorem host_memory_granted_is_mem_bytes_tdiv_mebibyte (host : HostSystem) :
    (hostRecords host).lookup "memory_granted" =
      some (.int (host.summary.hardware.memorySize.tdiv 1048576)) := by
  have h : (hostRecords host).lookup "memory_granted" =
      some (.int ((host.summary.hardware.memorySize.tdiv 1024).tdiv 1024)) := rfl
  rw [h, tdiv_kilo_kilo]

/-- C10: in both variants, the `guest_tools_running` field of every emitted
`virtual_machine` record carries the raw tools-running enumeration label as
a string value, never a boolean. -/
theorem guest_tools_running_always_string (vm : VirtualMachine) :
    (vmRecordsConc vm).lookup "guest_tools_running" =
      some (.str vm.summary.guest.toolsRunningStatus) ∧
    (vmRecordsSeq vm).lookup "guest_tools_running" =
      some (.str vm.summary.guest.toolsRunningStatus) :=
  ⟨rfl, rfl⟩

/-- C3 counterexample: for a virtual machine whose guest tools are not
running (empty guest IP address and hostname), the emitted record still
contains the `ip_address` field and the `hostname` tag, holding empty
strings — they are not omitted. -/
theorem vm_guest_fields_not_omitted_counterexample :
    exVMNoTools.summary.guest.ipAddress = "" ∧
    exVMNoTools.summary.guest.hostName = "" ∧
    ("ip_address", FieldValue.str "") ∈ vmRecordsConc exVMNoTools ∧
    ("hostname", "") ∈ vmTags exVMNoTools := by
  refine ⟨rfl, rfl, ?_, ?_⟩ <;> decide

/-- C3 amended: the emitted `virtual_machine` record always includes the
`ip_address` field and the `hostname` tag, carrying the property bag's
guest values verbatim — empty strings when guest tools are not running. -/
theorem vm_ip_address_and_hostname_always_present (vm : VirtualMachine) :
    (vmRecordsConc vm).lookup "ip_address" = some (.str vm.summary.guest.ipAddress) ∧
    (vmTags vm).lookup "hostname" = some vm.summary.guest.hostName :=
  ⟨rfl, rfl⟩

/-- C4 counterexample: the datastore extractor of the adopted (concurrent)
variant also emits a `health_status` field, so the emitted field key set is
not exactly the four keys named by the claim. -/
theorem datastore_field_keys_counterexample :
    "health_status" ∈ (datastoreRecordsConc exDatastore).map Prod.fst ∧
    "health_status" ∉ ["type", "capacity", "free_space", "uncommitted_space"] := by
  constructor <;> decide

/-- C4 amended: for every emitted datastore record of the concurrent
variant, the field keys are exactly `type`, `health_status`, `capacity`,
`free_space`, `uncommitted_space`, in that insertion order. -/
theorem datastore_field_keys_exactly_five (ds : Datastore) :
    (datastoreRecordsConc ds).map Prod.fst =
      ["type", "health_status", "capacity", "free_space", "uncommitted_space"] :=
  rfl

/-- C6 counterexample: on the same property bags the two orchestrator
variants emit records with different field key sets: the concurrent variant
adds `health_status` for datastores, the sequential variant adds `uptime`
for virtual machines. -/
theorem orchestrator_variants_differ_counterexample :
    (datastoreRecordsConc exDatastore).map Prod.fst ≠
      (datastoreRecordsSeq exDatastore).map Prod.fst ∧
    (vmRecordsConc exVMNoTools).map Prod.fst ≠
      (vmRecordsSeq exVMNoTools).map Prod.fst := by
  constructor <;> decide

/-- C6 amended: per inventory object the two variants agree on measurement
names, tag sets and host field sets (`hostRecords`/`hostTags` are literally
shared), and their datastore and virtual-machine field sets agree up to two
keys: erasing `health_status` from the concurrent datastore record yields
the sequential one, and erasing `uptime` from the sequential
virtual-machine record yields the concurrent one. -/
theorem orchestrator_variants_agree_up_to_two_keys (ds : Datastore) (vm : VirtualMachine) :
    (datastoreRecordsConc ds).filter (fun p => p.1 != "health_status") =
      datastoreRecordsSeq ds ∧
    (vmRecordsSeq vm).filter (fun p => p.1 != "uptime") = vmRecordsConc vm ∧
    "health_status" ∈ (datastoreRecordsConc ds).map Prod.fst ∧
    "uptime" ∈ (vmRecordsSeq vm).map Prod.fst := by
  refine ⟨rfl, rfl, ?_, ?_⟩ <;> simp [datastoreRecordsConc, vmRecordsSeq]

/-- C1: once session establishment succeeds, the concurrent `Gather`
returns `nil`; its returned error always equals the session-establishment
outcome (so a non-nil return happens only when establishment fails), and
under a successful session every pattern task's records land in the
accumulator's metrics and every pattern task's failure message lands in the
accumulator's reported errors — failing patterns do not suppress the
records of the remaining patterns. -/
theorem gather_fails_only_on_session_establishment (v : VSphere) (env : Env) :
    (gatherConcurrent v env).1 = sessionEstablishment env ∧
    (sessionEstablishment env = none →
      (∀ name ∈ v.hosts,
        (∀ m ∈ (hostTask env name).1, m ∈ (gatherConcurrent v env).2.metrics) ∧
        (∀ e ∈ (hostTask env name).2, e ∈ (gatherConcurrent v env).2.errors)) ∧
      (∀ name ∈ v.datastores,
        (∀ m ∈ (datastoreTask env name).1, m ∈ (gatherConcurrent v env).2.metrics) ∧
        (∀ e ∈ (datastoreTask env name).2, e ∈ (gatherConcurrent v env).2.errors)) ∧
      (∀ name ∈ v.virtualMachines,
        (∀ m ∈ (vmTask env name).1, m ∈ (gatherConcurrent v env).2.metrics) ∧
        (∀ e ∈ (vmTask env name).2, e ∈ (gatherConcurrent v env).2.errors))) := by
  constructor
  · cases h : sessionEstablishment env <;> simp [gatherConcurrent, h]
  · intro hs
    have hacc : (gatherConcurrent v env).2 =
        ⟨((v.hosts.map (hostTask env) ++ v.datastores.map (datastoreTask env)
          ++ v.virtualMachines.map (vmTask env)).map Prod.fst).flatten,
         ((v.hosts.map (hostTask env) ++ v.datastores.map (datastoreTask env)
          ++ v.virtualMachines.map (vmTask env)).map Prod.snd).flatten⟩ := by
      simp [gatherConcurrent, hs]
    have hmem : ∀ t ∈ v.hosts.map (hostTask env) ++ v.datastores.map (datastoreTask env)
        ++ v.virtualMachines.map (vmTask env),
        (∀ m ∈ t.1, m ∈ (gatherConcurrent v env).2.metrics) ∧
        (∀ e ∈ t.2, e ∈ (gatherConcurrent v env).2.errors) := by
      intro t ht
      rw [hacc]
      exact ⟨fun m hm => List.mem_flatten.mpr ⟨t.1, List.mem_map_of_mem Prod.fst ht, hm⟩,
        fun e he => List.mem_flatten.mpr ⟨t.2, List.mem_map_of_mem Prod.snd ht, he⟩⟩
    refine ⟨fun name hname => ?_, fun name hname => ?_, fun name hname => ?_⟩
    · exact hmem _ (List.mem_append_left _
        (List.mem_append_left _ (List.mem_map_of_mem (hostTask env) hname)))
    · exact hmem _ (List.mem_append_left _
        (List.mem_append_right _ (List.mem_map_of_mem (datastoreTask env) hname)))
    · exact hmem _ (List.mem_append_right _ (List.mem_map_of_mem (vmTask env) hname))

/-- C1 witness: in the sample environment (session succeeds, the host
pattern resolves and fetches, the datastore pattern's resolution fails),
`Gather` returns `nil`, the host record is emitted and the datastore
pattern's error is reported. -/
theorem gather_fails_only_on_session_establishment_witness :
    (gatherConcurrent exCfg exEnv).1 = none ∧
    (⟨"host", hostRecords exHost, hostTags exHost⟩ : Metric)
      ∈ (gatherConcurrent exCfg exEnv).2.metrics ∧
    "Cannot read datastore list for ds*: boom" ∈ (gatherConcurrent exCfg exEnv).2.errors := by
  have h := gather_fails_only_on_session_establishment exCfg exEnv
  refine ⟨h.1.trans rfl, ?_, ?_⟩
  · exact ((h.2 rfl).1 "esxi*" (by decide)).1 _ (by decide)
  · exact ((h.2 rfl).2.1 "ds*" (by decide)).2 _ (by decide)

/-- C7: a fatal session-establishment error (URL parsing, login, or
datacenter resolution) makes both `Gather` variants return that error
immediately, with no metric records emitted and no errors reported to the
accumulator in that cycle. -/
theorem fatal_session_error_aborts_with_no_metrics (v : VSphere) (env : Env)
    (e : String) (h : sessionEstablishment env = some e) :
    (gatherConcurrent v env).1 = some e ∧
    (gatherConcurrent v env).2.metrics = [] ∧
    (gatherConcurrent v env).2.errors = [] ∧
    (gatherSequential v env).1 = some e ∧
    (gatherSequential v env).2.metrics = [] := by
  simp [gatherConcurrent, gatherSequential, h]

/-- C7 witness: with a failing login the cycle returns the login error and
emits nothing. -/
theorem fatal_session_error_aborts_with_no_metrics_witness :
    sessionEstablishment exBadEnv = some "login failed" ∧
    (gatherConcurrent exCfg exBadEnv).1 = some "login failed" ∧
    (gatherConcurrent exCfg exBadEnv).2.metrics = [] ∧
    (gatherSequential exCfg exBadEnv).1 = some "login failed" := by
  have h := fatal_session_error_aborts_with_no_metrics exCfg exBadEnv "login failed" rfl
  exact ⟨rfl, h.1, h.2.1, h.2.2.2.1⟩

/-- C5 counterexample: called with an empty object list, the batch fetcher
does not short-circuit: it issues the retrieval call with an empty
reference list, and against a backend treating the empty filter as the
all-objects sentinel it even emits a record. -/
theorem empty_input_no_short_circuit_counterexample :
    (gatherHostMetrics sentinelRetrieveHosts []).2 = [[]] ∧
    (gatherHostMetrics sentinelRetrieveHosts []).1 =
      .ok [⟨"host", hostRecords exHost, hostTags exHost⟩] :=
  ⟨rfl, rfl⟩

/-- C5 amended: the batch fetchers always issue exactly one retrieval call,
passing the (possibly empty) reference list — there is no empty-input
short-circuit; the records emitted are exactly one per bag the call
returns, so no records appear only when the call returns no bags. -/
theorem batch_fetch_always_issues_one_call
    (rH : RetrieveOracle HostSystem) (rD : RetrieveOracle Datastore)
    (hosts datastores : List InventoryObject) :
    (gatherHostMetrics rH hosts).2 = [hosts.map (fun obj => obj.reference)] ∧
    (gatherDatastoreMetricsConc rD datastores).2 =
      [datastores.map (fun obj => obj.reference)] ∧
    (∀ bags, rH [] = .ok bags → (gatherHostMetrics rH []).1 =
      .ok (bags.map (fun host => ⟨"host", hostRecords host, hostTags host⟩))) ∧
    (∀ bags, rD [] = .ok bags → (gatherDatastoreMetricsConc rD []).1 =
      .ok (bags.map (fun ds => ⟨"datastore", datastoreRecordsConc ds, datastoreTags ds⟩))) := by
  refine ⟨rfl, rfl, fun bags hb => ?_, fun bags hb => ?_⟩ <;>
    simp [gatherHostMetrics, gatherDatastoreMetricsConc, hb]

/-- C5 witness: at the sample environment the host fetcher on an empty list
issues the one call with empty references and emits nothing, since this
backend answers the empty query with no bags. -/
theorem batch_fetch_always_issues_one_call_witness :
    (gatherHostMetrics exEnvResolver.retrieveHosts []).2 = [[]] ∧
    exEnvResolver.retrieveHosts [] = .ok [] ∧
    (gatherHostMetrics exEnvResolver.retrieveHosts []).1 = .ok [] := by
  have h := batch_fetch_always_issues_one_call exEnvResolver.retrieveHosts
    exEnvResolver.retrieveDatastores [] []
  exact ⟨h.1, rfl, h.2.2.1 [] rfl⟩

/-- C8: a name pattern matching zero catalog objects makes the
(spec-modelled) resolver return an empty sequence and no error, and —
provided the batched retrieval on the resulting empty reference list
succeeds with no bags, since the code still issues that call — the
orchestrator's task for that pattern reports no error and emits no
records. -/
theorem zero_match_pattern_is_success (mp : String → String → Bool)
    (catalog : List (String × InventoryObject)) (pat : String) (env : Env)
    (hmatch : ∀ entry ∈ catalog, mp pat entry.1 = false)
    (hres : env.hostSystemList pat = resolveList mp catalog pat)
    (hretr : env.retrieveHosts [] = .ok []) :
    resolveList mp catalog pat = .ok [] ∧ hostTask env pat = ([], []) := by
  have hfilter : catalog.filter (fun entry => mp pat entry.1) = [] := by
    refine List.filter_eq_nil_iff.mpr fun a ha => ?_
    simp [hmatch a ha]
  constructor
  · simp [resolveList, hfilter]
  · simp [hostTask, hres, resolveList, hfilter, gatherHostMetrics, hretr]

/-- C8 witness: the exact-name matcher over a one-host catalog matches
nothing for a fresh name; the resolver returns `ok []` and the host task
for that pattern contributes no records and no errors. -/
theorem zero_match_pattern_is_success_witness :
    resolveList eqMatcher [("esxi1", exHostObj)] "esxi9" = .ok [] ∧
    hostTask exEnvResolver "esxi9" = ([], []) := by
  exact zero_match_pattern_is_success eqMatcher [("esxi1", exHostObj)] "esxi9"
    exEnvResolver (by decide) rfl rfl

/-- C9: whenever the batched retrieval succeeds with a list of property
bags, the extractor emits exactly one record per bag — per-object
extraction is total and unconditional, for all three object kinds of the
concurrent variant. -/
theorem extractors_emit_one_record_per_bag
    (rH : RetrieveOracle HostSystem) (rD : RetrieveOracle Datastore)
    (rV : RetrieveOracle VirtualMachine)
    (hosts dss vms : List InventoryObject)
    (bagsH : List HostSystem) (bagsD : List Datastore) (bagsV : List VirtualMachine)
    (hH : rH (hosts.map (fun obj => obj.reference)) = .ok bagsH)
    (hD : rD (dss.map (fun obj => obj.reference)) = .ok bagsD)
    (hV : rV (vms.map (fun obj => obj.reference)) = .ok bagsV) :
    (gatherHostMetrics rH hosts).1 =
      .ok (bagsH.map (fun host => ⟨"host", hostRecords host, hostTags host⟩)) ∧
    (gatherDatastoreMetricsConc rD dss).1 =
      .ok (bagsD.map (fun ds => ⟨"datastore", datastoreRecordsConc ds, datastoreTags ds⟩)) ∧
    (gatherVMMetricsConc rV vms).1 =
      .ok (bagsV.map (fun vm => ⟨"virtual_machine", vmRecordsConc vm, vmTags vm⟩)) := by
  refine ⟨?_, ?_, ?_⟩ <;>
    simp [gatherHostMetrics, gatherDatastoreMetricsConc, gatherVMMetricsConc, hH, hD, hV]

/-- C9 witness: one host reference, one returned bag, one emitted record. -/
theorem extractors_emit_one_record_per_bag_witness :
    (gatherHostMetrics exEnv.retrieveHosts [exHostObj]).1 =
      .ok [⟨"host", hostRecords exHost, hostTags exHost⟩] ∧
    (gatherDatastoreMetricsConc exEnv.retrieveDatastores []).1 = .ok [] ∧
    (gatherVMMetricsConc exEnv.retrieveVMs []).1 = .ok [] := by
  have h := extractors_emit_one_record_per_bag exEnv.retrieveHosts
    exEnv.retrieveDatastores exEnv.retrieveVMs [exHostObj] [] [] [exHost] [] []
    rfl rfl rfl
  exact ⟨h.1, h.2.1, h.2.2⟩

end Vsphere
